import Mathlib

/-!
Shallow embedding of the `smelly-weather` repository's data-quality core:
`src/validators/quality_checks.py` (class `WeatherDataValidator`),
`src/monitoring/integrator.py` (class `WeatherMonitoringIntegrator`) and
`src/extractors/weather_api.py` (class `WeatherDataExtractor`).

Modelling conventions:
* A pandas `DataFrame` of weather rows becomes `List WeatherRecord`
  (fixed seven-column schema: city, timestamp, temperature, humidity,
  pressure, wind_speed, weather_condition), rows kept in order.
* Numeric cells are `Option ℚ`: `none` models a null/NaN cell.  Exact
  rationals replace Python floats; the constant `0.6745` is the exact
  rational `6745/10000`.
* `city` and `timestamp` are non-null, matching the data-model invariant
  (a record always has an entity id and a timezone-aware timestamp; the
  extractor always sets both).  Timestamps are rationals counting seconds.
* `datetime.now(timezone.utc)` becomes an explicit `now : ℚ` parameter.
* Human-readable issue strings become the structured `Issue` type carrying
  the same data the formatted message interpolates.
* IEEE semantics of the source's arithmetic on columns containing NaN or of
  division by zero are modelled case by case where they decide control flow
  (see `detect_anomalies`).
-/

/-- One weather observation (one row of the DataFrame built by the
extractor; schema of `columns_to_check` in `quality_checks.py`). -/
structure WeatherRecord where
  city : String
  timestamp : ℚ
  temperature : Option ℚ
  humidity : Option ℚ
  pressure : Option ℚ
  wind_speed : Option ℚ
  weather_condition : Option String
  deriving Repr, DecidableEq

/-- The seven DataFrame columns (`columns_to_check` in
`create_expectation_suite`). -/
inductive Col where
  | city
  | timestamp
  | temperature
  | humidity
  | pressure
  | wind_speed
  | weather_condition
  deriving Repr, DecidableEq

/-- `columns_to_check` of `create_expectation_suite`, in source order. -/
def columns_to_check : List Col :=
  [.city, .timestamp, .temperature, .humidity, .pressure, .wind_speed,
   .weather_condition]

/-- The numeric value a record holds in a column (`none` for the two
non-numeric columns and for null cells). -/
def numVal (r : WeatherRecord) : Col → Option ℚ
  | .temperature => r.temperature
  | .humidity => r.humidity
  | .pressure => r.pressure
  | .wind_speed => r.wind_speed
  | _ => none

/-- Whether a record's cell in a column is null (city and timestamp are
never null in this model, per the data-model invariant). -/
def isNullAt (r : WeatherRecord) : Col → Bool
  | .city => false
  | .timestamp => false
  | .temperature => r.temperature.isNone
  | .humidity => r.humidity.isNone
  | .pressure => r.pressure.isNone
  | .wind_speed => r.wind_speed.isNone
  | .weather_condition => r.weather_condition.isNone

/-- One Great Expectations expectation of the suite built by
`create_expectation_suite`. -/
inductive Expectation where
  | notNull (col : Col)
  | between (col : Col) (lo hi : ℚ)
  deriving Repr, DecidableEq

/-- `self.validation_rules` of `WeatherDataValidator.__init__`:
per-column `(min, max, std_dev_threshold)`.  Only temperature, humidity
and pressure appear in the dict. -/
def validation_rules : Col → Option (ℚ × ℚ × ℚ)
  | .temperature => some (-50, 50, 3)
  | .humidity => some (0, 100, 3)
  | .pressure => some (870, 1090, 3)
  | _ => none

/-- The columns of `validation_rules`, in dict-insertion order. -/
def validation_rules_cols : List Col := [.temperature, .humidity, .pressure]

/-- `WeatherDataValidator.create_expectation_suite`: null checks for all
seven columns followed by range checks — the source hand-writes range
expectations for temperature and humidity only (the pressure bounds of
`validation_rules` are consumed nowhere here). -/
def create_expectation_suite : List Expectation :=
  columns_to_check.map .notNull ++
    [.between .temperature (-50) 50, .between .humidity 0 100]

/-- Whether an expectation succeeds on a DataFrame.
`expect_column_values_to_not_be_null` fails iff some row is null in the
column; `expect_column_values_to_be_between` ignores null cells and fails
iff some non-null value leaves the closed interval. -/
def expectationHolds (df : List WeatherRecord) : Expectation → Bool
  | .notNull col => df.all fun r => !(isNullAt r col)
  | .between col lo hi => df.all fun r =>
      match numVal r col with
      | none => true
      | some v => decide (lo ≤ v) && decide (v ≤ hi)

/-- A structured validation issue: each constructor carries the data that
the corresponding f-string in `quality_checks.py` interpolates.  For an
anomaly, `score = none` models the infinite modified z-score printed when
the MAD divisor is zero. -/
inductive Issue where
  | geFailure (e : Expectation)
  | freshness (city : String) (age : ℚ)
  | anomaly (col : Col) (city : String) (value : ℚ) (score : Option ℚ)
  | tempHumidity (city : String)
  | pressureJump (city : String) (magnitude : ℚ)
  deriving Repr, DecidableEq

/-- `np.abs` on a rational. -/
def absQ (x : ℚ) : ℚ := if x < 0 then -x else x

/-- Binary maximum on rationals. -/
def maxQ (x y : ℚ) : ℚ := if x ≤ y then y else x

/-- Insert into a ≤-sorted list of rationals. -/
def insertQ (x : ℚ) : List ℚ → List ℚ
  | [] => [x]
  | y :: ys => if x ≤ y then x :: y :: ys else y :: insertQ x ys

/-- Insertion sort for rationals. -/
def sortQ : List ℚ → List ℚ
  | [] => []
  | x :: xs => insertQ x (sortQ xs)

/-- `pandas.Series.median` / `np.median` on a nonempty list of non-NaN
values: middle element of the sorted list, or the mean of the two middle
elements for even length.  (Callers guard the empty/NaN cases, where
pandas produces NaN.) -/
def pandasMedian (l : List ℚ) : ℚ :=
  let s := sortQ l
  let n := s.length
  if n % 2 = 1 then s.getD (n / 2) 0
  else (s.getD (n / 2 - 1) 0 + s.getD (n / 2) 0) / 2

/-- Helper for `uniques`: keep the first occurrence of each city not yet
seen. -/
def uniquesAux (seen : List String) : List String → List String
  | [] => []
  | c :: rest =>
      if seen.contains c then uniquesAux seen rest
      else c :: uniquesAux (c :: seen) rest

/-- `df['city'].unique()`: distinct cities in first-occurrence order. -/
def uniques (l : List String) : List String := uniquesAux [] l

/-- The slice `df[df['city'] == city]`. -/
def citySlice (df : List WeatherRecord) (city : String) : List WeatherRecord :=
  df.filter fun r => r.city == city

/-- `WeatherDataValidator.check_data_freshness`: per city, compare the
slice's most recent timestamp against `now`; ages are in minutes. -/
def check_data_freshness (df : List WeatherRecord) (now : ℚ)
    (max_age_minutes : ℚ := 60) : List Issue :=
  (uniques (df.map (·.city))).filterMap fun city =>
    let city_data := citySlice df city
    -- every city produced by `uniques` has a nonempty slice, so the `[]`
    -- arm (pandas' NaT) is unreachable
    let largest_timestamp :=
      match city_data.map (·.timestamp) with
      | [] => 0
      | t :: ts => ts.foldl maxQ t
    let age := (now - largest_timestamp) / 60
    if age > max_age_minutes then some (.freshness city age) else none

/-- The modified z-score rows `detect_anomalies` flags in one column,
given that column's non-NaN median and MAD.  `mad = 0` reproduces the
source's IEEE behaviour of `0.6745 * (x - median) / 0`: `+inf`
(`> threshold`, score printed as infinite) for `x ≠ median`, `NaN`
(never `> threshold`) for `x = median`. -/
def anomalyRows (df : List WeatherRecord) (col : Col) (median mad threshold : ℚ) :
    List Issue :=
  if mad = 0 then
    df.filterMap fun r => (numVal r col).bind fun v =>
      if v ≠ median then some (.anomaly col r.city v none) else none
  else
    df.filterMap fun r => (numVal r col).bind fun v =>
      let z := absQ ((6745 / 10000 : ℚ) * (v - median) / mad)
      if z > threshold then some (.anomaly col r.city v (some z)) else none

/-- `WeatherDataValidator.detect_anomalies` on the DataFrame it is handed.
Per rules column: `median = df[col].median()` (skips NaN),
`mad = np.median(np.abs(df[col] - median))`.  When the column is empty the
median is NaN, and when any cell is null the `np.median` call sees a NaN
and returns NaN; either way every comparison `NaN > threshold` is false
and the column yields no issues, which the first guard models.  Issues
come in column order then row order, as `anomalies.iterrows()` does. -/
def detect_anomalies (df : List WeatherRecord) : List Issue :=
  validation_rules_cols.flatMap fun col =>
    match validation_rules col with
    | none => []
    | some (_, _, threshold) =>
      let cells := df.map fun r => numVal r col
      if cells.any Option.isNone then []
      else
        match cells.filterMap id with
        | [] => []
        | vals =>
          let median := pandasMedian vals
          let mad := pandasMedian (vals.map fun x => absQ (x - median))
          anomalyRows df col median mad threshold

/-- Adjacent pressure differences `city_data['pressure'].diff().abs()`,
dropping the NaN entries a null endpoint produces (pandas `max` skips
NaN). -/
def pressureDiffs : List WeatherRecord → List ℚ
  | a :: b :: rest =>
      (match a.pressure, b.pressure with
       | some x, some y => [absQ (y - x)]
       | _, _ => []) ++ pressureDiffs (b :: rest)
  | _ => []

/-- `WeatherDataValidator.validate_weather_patterns`: per city, the
temperature-high/humidity-low co-occurrence check and, for slices longer
than one row, the maximum absolute successive pressure change (comparisons
against null cells are false, as NaN comparisons are in pandas). -/
def validate_weather_patterns (df : List WeatherRecord) : List Issue :=
  (uniques (df.map (·.city))).flatMap fun city =>
    let city_data := citySlice df city
    (if (city_data.any fun r => match r.temperature with
          | some t => decide (t > 35) | none => false) &&
        (city_data.any fun r => match r.humidity with
          | some h => decide (h < 10) | none => false)
     then [Issue.tempHumidity city] else []) ++
    (if city_data.length > 1 then
       match (pressureDiffs city_data).foldl
           (fun acc x => match acc with
             | none => some x
             | some m => some (maxQ m x)) none with
       | some m => if m > 20 then [Issue.pressureJump city m] else []
       | none => []
     else [])

/-- Verdict status. -/
inductive Status where
  | passed
  | failed
  deriving Repr, DecidableEq

/-- The dict returned by `WeatherDataValidator.validate_data`. -/
structure Verdict where
  status : Status
  issues : List Issue
  total_records : Nat
  cities : List String
  deriving Repr, DecidableEq

/-- `WeatherDataValidator.validate_data`: run the expectation suite, then
freshness, anomaly and pattern checks, accumulating issues in that order;
status is `failed` exactly when the accumulated list is nonempty. -/
def validate_data (df : List WeatherRecord) (now : ℚ) : Verdict :=
  let all_issues :=
    create_expectation_suite.filterMap
      (fun e => if expectationHolds df e then none else some (Issue.geFailure e)) ++
    check_data_freshness df now ++
    detect_anomalies df ++
    validate_weather_patterns df
  { status := if all_issues.isEmpty then .passed else .failed
    issues := all_issues
    total_records := df.length
    cities := uniques (df.map (·.city)) }

/-! ## `src/extractors/weather_api.py` — `WeatherDataExtractor` -/

/-- The fields `_parse_weather_data` reads out of the raw OpenWeatherMap
JSON (`main.temp`, `main.humidity`, `main.pressure`, `wind.speed`,
`weather[0].main`); `none` models a missing key, whose `KeyError` the
method's `except Exception` catches. -/
structure RawPayload where
  main_temp : Option ℚ
  main_humidity : Option ℚ
  main_pressure : Option ℚ
  wind_speed : Option ℚ
  weather_main : Option String
  deriving Repr, DecidableEq

/-- Outcome of `requests.get` + `raise_for_status` + `json()` for one
city: a payload, or one of the two caught `requests` exception classes. -/
inductive ReqResult where
  | ok (raw : RawPayload)
  | timeout
  | requestError
  deriving Repr, DecidableEq

/-- `WeatherDataExtractor._make_api_request`: both exception classes are
caught and become `None`. -/
def _make_api_request (response : String → ReqResult) (city : String) :
    Option RawPayload :=
  match response city with
  | .ok raw => some raw
  | .timeout => none
  | .requestError => none

/-- `WeatherDataExtractor._parse_weather_data`: build a `WeatherData`
model from the raw payload; a missing key or a pydantic bound violation
(`-100 < temp < 100`, `0 ≤ humidity ≤ 100`, `800 < pressure < 1200`,
`0 ≤ wind_speed`) raises inside the `try` and yields `None`.  The source
assigns `datetime.utcnow` to the timestamp field; the model injects the
current time as `now`. -/
def _parse_weather_data (city : String) (now : ℚ) (raw : RawPayload) :
    Option WeatherRecord :=
  match raw.main_temp, raw.main_humidity, raw.main_pressure,
      raw.wind_speed, raw.weather_main with
  | some t, some h, some p, some w, some cond =>
      if (-100 : ℚ) < t ∧ t < 100 ∧ 0 ≤ h ∧ h ≤ 100 ∧
          (800 : ℚ) < p ∧ p < 1200 ∧ 0 ≤ w then
        some { city := city, timestamp := now, temperature := some t,
               humidity := some h, pressure := some p,
               wind_speed := some w, weather_condition := some cond }
      else none
  | _, _, _, _, _ => none

/-- One iteration of the loop in `fetch_weather_data`: request, then
parse only when the request yielded data. -/
def cityStep (response : String → ReqResult) (now : ℚ) (city : String) :
    Option WeatherRecord :=
  (_make_api_request response city).bind (_parse_weather_data city now)

/-- `WeatherDataExtractor.fetch_weather_data`: collect the successfully
parsed rows over all configured cities; when nothing was collected the
result is the empty DataFrame. -/
def fetch_weather_data (cities : List String) (response : String → ReqResult)
    (now : ℚ) : List WeatherRecord :=
  cities.filterMap (cityStep response now)

/-! ## `src/monitoring/integrator.py` — `WeatherMonitoringIntegrator` -/

/-- The per-city metrics dict built by `_calculate_metrics`: pandas means
(`none` models the NaN mean of an all-null column) and the completeness
percentage. -/
structure Metrics where
  temperature : Option ℚ
  humidity : Option ℚ
  pressure : Option ℚ
  wind_speed : Option ℚ
  data_completeness : ℚ
  deriving Repr, DecidableEq

/-- `pandas.Series.mean`: mean of the non-null cells, NaN (`none`) when
there are none. -/
def pandasMean (cells : List (Option ℚ)) : Option ℚ :=
  match cells.filterMap id with
  | [] => none
  | vals => some (vals.sum / vals.length)

/-- Null cells of one record across the seven columns (city and timestamp
are non-null by the record invariant). -/
def recordNullCells (r : WeatherRecord) : Nat :=
  (columns_to_check.filter fun col => isNullAt r col).length

/-- `city_data.isnull().sum().sum()`: null cells of the whole slice. -/
def missingCells (df : List WeatherRecord) : Nat :=
  (df.map recordNullCells).sum

/-- `WeatherMonitoringIntegrator._calculate_metrics`: `none` is the empty
dict returned for an empty slice; otherwise column means over the slice
and `data_completeness = (1 - nulls / (len(slice) * len(columns))) * 100`
with `len(columns) = 7`, the full DataFrame column count. -/
def _calculate_metrics (df : List WeatherRecord) (city : String) :
    Option Metrics :=
  let city_data := citySlice df city
  if city_data.isEmpty then none
  else some
    { temperature := pandasMean (city_data.map (·.temperature))
      humidity := pandasMean (city_data.map (·.humidity))
      pressure := pandasMean (city_data.map (·.pressure))
      wind_speed := pandasMean (city_data.map (·.wind_speed))
      data_completeness :=
        (1 - (missingCells city_data : ℚ) / (city_data.length * 7)) * 100 }

/-- The JSON body `_send_to_monitoring_service` posts for one city. -/
structure ReportPayload where
  status : Status
  city : String
  issues : List Issue
  metrics : Option Metrics
  deriving Repr, DecidableEq

/-- What the sink does with one post: HTTP 200, a non-200 status, or an
exception raised by the session (connection refused, timeout, ...). -/
inductive SinkResult where
  | ok
  | badStatus
  | raised
  deriving Repr, DecidableEq

/-- Observable effects of one monitoring cycle: payloads delivered to the
sink and the log lines the integrator emits. -/
inductive Event where
  | posted (city : String) (payload : ReportPayload)
  | sinkSuccessLog (city : String)
  | sinkErrorLog (city : String)
  | sendExceptionLog (city : String)
  | noDataLog (city : String)
  | processErrorLog (city : String)
  | emptyBatchLog
  deriving Repr, DecidableEq

/-- `WeatherMonitoringIntegrator._send_to_monitoring_service`: post the
payload; a non-200 response logs an error, a raised exception is caught
and logged (the payload then never reached the sink).  Nothing escapes
the method. -/
def _send_to_monitoring_service (sink : String → ReportPayload → SinkResult)
    (city : String) (payload : ReportPayload) : List Event :=
  match sink city payload with
  | .ok => [.posted city payload, .sinkSuccessLog city]
  | .badStatus => [.posted city payload, .sinkErrorLog city]
  | .raised => [.sendExceptionLog city]

/-- The payload `process_single_city` builds for a city: the verdict of
validating the city's slice alone, plus metrics computed from the full
DataFrame. -/
def cityPayload (df : List WeatherRecord) (city : String) (now : ℚ) :
    ReportPayload :=
  let validation_result := validate_data (citySlice df city) now
  { status := validation_result.status
    city := city
    issues := validation_result.issues
    metrics := _calculate_metrics df city }

/-- `WeatherMonitoringIntegrator.process_single_city`: everything runs
inside `try/except`, so an exception raised while handling one city
(modelled by the `raises` fault oracle) is caught at that city's boundary
and only logged.  An empty slice logs a warning and returns before
validating or dispatching.  Note the validator is called on `city_data`,
the city's slice — the full DataFrame `df` is used only for metrics. -/
def process_single_city (raises : String → Bool)
    (sink : String → ReportPayload → SinkResult) (df : List WeatherRecord)
    (city : String) (now : ℚ) : List Event :=
  if raises city then [.processErrorLog city]
  else
    let city_data := citySlice df city
    if city_data.isEmpty then [.noDataLog city]
    else _send_to_monitoring_service sink city (cityPayload df city now)

/-- The body of `run_monitoring_cycle` after the fetch: an empty DataFrame
logs and returns; otherwise `asyncio.gather` runs `process_single_city`
for every configured city.  The per-city coroutines share no mutable
state and none of them raises, so the gather is modelled as the
join-ordered concatenation of the per-city event lists. -/
def run_monitoring_cycle_on (raises : String → Bool)
    (sink : String → ReportPayload → SinkResult) (df : List WeatherRecord)
    (cities : List String) (now : ℚ) : List Event :=
  if df.isEmpty then [.emptyBatchLog]
  else cities.flatMap fun city => process_single_city raises sink df city now

/-- `WeatherMonitoringIntegrator.run_monitoring_cycle`: fetch once via the
extractor, then process every configured city against the fetched batch. -/
def run_monitoring_cycle (raises : String → Bool)
    (sink : String → ReportPayload → SinkResult)
    (response : String → ReqResult) (cities : List String) (now : ℚ) :
    List Event :=
  run_monitoring_cycle_on raises sink (fetch_weather_data cities response now)
    cities now

/-! ## Spec-side definitions (for refinement comparisons) -/

/-- Spec §4.1 step 4, as the spec words it (to be compared with the
source's `detect_anomalies` as called by the cycle): for each configured
numeric measurement column, median and MAD are computed *over the entire
batch*; each record of the validated slice whose modified z-score
`0.6745 * (x - median) / mad` exceeds the threshold in absolute value is
an anomaly; a column with `mad = 0` is skipped. -/
def specAnomalyCheckBatchwide (slice fullBatch : List WeatherRecord) :
    List Issue :=
  validation_rules_cols.flatMap fun col =>
    match validation_rules col with
    | none => []
    | some (_, _, threshold) =>
      match fullBatch.filterMap (fun r => numVal r col) with
      | [] => []
      | vals =>
        let median := pandasMedian vals
        let mad := pandasMedian (vals.map fun x => absQ (x - median))
        if mad = 0 then []
        else slice.filterMap fun r => (numVal r col).bind fun v =>
          let z := absQ ((6745 / 10000 : ℚ) * (v - median) / mad)
          if z > threshold then some (.anomaly col r.city v (some z)) else none

/-- The spec's four numeric measurement columns (data model §3:
temperature, humidity, pressure, wind speed). -/
def measurement_cols : List Col :=
  [.temperature, .humidity, .pressure, .wind_speed]

/-- Null cells of a slice counted over the measurement columns only. -/
def missingMeasurementCells (df : List WeatherRecord) : Nat :=
  (df.map fun r => (measurement_cols.filter fun col => isNullAt r col).length).sum

/-- Spec §4.2, as the spec words it (to be compared with the completeness
computed by `_calculate_metrics`):
`100 * (1 - missing_cells / total_cells)` with
`total_cells = record_count × measurement_column_count`. -/
def specCompleteness (slice : List WeatherRecord) : ℚ :=
  100 * (1 - (missingMeasurementCells slice : ℚ) /
    (slice.length * measurement_cols.length))

/-- Whether an issue is a statistical-anomaly issue. -/
def isAnomalyIssue : Issue → Bool
  | .anomaly _ _ _ _ => true
  | _ => false

/-- Non-null cells of one record across the seven columns. -/
def recordNonNullCells (r : WeatherRecord) : Nat :=
  (columns_to_check.filter fun col => !(isNullAt r col)).length

/-- Non-null cells of a slice across the seven columns. -/
def nonNullCells (df : List WeatherRecord) : Nat :=
  (df.map recordNonNullCells).sum

/-! ## Concrete fixtures used by counterexamples and witnesses -/

/-- A fully populated record with the given city, timestamp and
measurements. -/
def mkRec (c : String) (ts t h p w : ℚ) : WeatherRecord :=
  { city := c, timestamp := ts, temperature := some t, humidity := some h,
    pressure := some p, wind_speed := some w,
    weather_condition := some "Clear" }

/-- Two records for city `A` with temperatures 20 and 100, all other
fields equal and in range (spec §8's example scenario). -/
def c8batch : List WeatherRecord :=
  [mkRec "A" 0 20 65 1013 5, mkRec "A" 0 100 65 1013 5]

/-- Four records for city `A` whose temperature column `[1, 1, 1, 5]` has
median 1 and MAD 0; every other column is constant and in range. -/
def c2df : List WeatherRecord :=
  [mkRec "A" 0 1 50 1000 5, mkRec "A" 0 1 50 1000 5,
   mkRec "A" 0 1 50 1000 5, mkRec "A" 0 5 50 1000 5]

/-- One fresh, complete record for city `A` whose pressure 2000 lies far
outside the configured pressure interval `[870, 1090]`, all other
measurements in range. -/
def c5df : List WeatherRecord := [mkRec "A" 0 20 50 2000 5]

/-- A two-city batch: city `A` holds temperatures 10..13, city `B` a lone
record with temperature 100; other columns constant. -/
def c1batch : List WeatherRecord :=
  [mkRec "A" 0 10 50 1000 5, mkRec "A" 0 11 50 1000 5,
   mkRec "A" 0 12 50 1000 5, mkRec "A" 0 13 50 1000 5,
   mkRec "B" 0 100 50 1000 5]

/-- One record for city `A` with a null humidity cell and every other
cell present. -/
def c6df : List WeatherRecord :=
  [{ city := "A", timestamp := 0, temperature := some 20, humidity := none,
     pressure := some 1000, wind_speed := some 5,
     weather_condition := some "Clear" }]

/-- A two-city batch used to exercise fan-out isolation. -/
def wDf : List WeatherRecord :=
  [mkRec "A" 0 20 50 1000 5, mkRec "B" 0 21 50 1000 5]

/-- A sink that accepts city `A`'s dispatch and raises on every other
city's. -/
def wSink : String → ReportPayload → SinkResult :=
  fun c _ => if c = "A" then .ok else .raised

/-! ## Claims -/

-- Core seals rational arithmetic against definitional unfolding; the
-- concrete evaluations below need it unfolded.
unseal Rat.add Rat.mul Rat.inv Rat.sub

/-- C3: for every slice with zero records, `validate_data` returns status
`passed`, an empty issue list and a record count of 0 (no exception can
escape: the model is a total function, as every fallible step of the
source is vacuous on an empty DataFrame). -/
theorem C3_empty_slice_passes (now : ℚ) :
    validate_data [] now =
      { status := .passed, issues := [], total_records := 0, cities := [] } :=
  rfl

/-- The status computed from an issue list is `failed` iff the list is
nonempty. -/
theorem status_of_issues (l : List Issue) :
    (if l.isEmpty then Status.passed else .failed) = .failed ↔ l ≠ [] := by
  cases l <;> simp

/-- C4: the verdict's status is `failed` iff the accumulated issue list
after all pipeline stages is nonempty. -/
theorem C4_status_iff_issues (df : List WeatherRecord) (now : ℚ) :
    (validate_data df now).status = .failed ↔
      (validate_data df now).issues ≠ [] :=
  status_of_issues _

/-- C2: the temperature column of `c2df` has MAD 0, yet `detect_anomalies`
does not skip it — the division by the zero MAD produces an infinite
modified z-score for the value 5 and an anomaly issue is emitted. -/
theorem C2_mad_zero_not_skipped :
    pandasMedian (([1, 1, 1, 5] : List ℚ).map
        fun x => absQ (x - pandasMedian [1, 1, 1, 5])) = 0 ∧
    (c2df.map fun r => numVal r .temperature) =
      [some 1, some 1, some 1, some 5] ∧
    detect_anomalies c2df = [.anomaly .temperature "A" 5 none] := by
  decide

/-- C5: the validator's own rules give pressure the closed interval
`[870, 1090]`, yet the expectation suite contains no range check for
pressure, so a fresh in-range-elsewhere record with pressure 2000 passes
validation with no issue at all. -/
theorem C5_pressure_range_unchecked :
    validation_rules .pressure = some (870, 1090, 3) ∧
    (create_expectation_suite.all fun e =>
      match e with
      | .between .pressure _ _ => false
      | _ => true) = true ∧
    ¬ ((870 : ℚ) ≤ 2000 ∧ (2000 : ℚ) ≤ 1090) ∧
    validate_data c5df 0 =
      { status := .passed, issues := [], total_records := 1,
        cities := ["A"] } := by
  decide

/-- C8 counterexample: on the spec's example batch (city `A`, temperatures
20 and 100, all else equal and in range) validation emits no anomaly
issue at all — in particular none referencing city `A`, column
temperature, value 100. -/
theorem C8_counterexample :
    (validate_data c8batch 0).issues.filter isAnomalyIssue = [] ∧
    detect_anomalies c8batch = [] := by
  decide

/-- C8 (amended): on the example batch the temperature column has median
60 and MAD 40, the modified z-score of both records is `0.6745 < 3`, so
anomaly detection flags nothing; the only issue is the range-check
failure for the out-of-range temperature 100. -/
theorem C8_two_record_column_below_threshold :
    pandasMedian [20, 100] = 60 ∧
    pandasMedian (([20, 100] : List ℚ).map fun x => absQ (x - 60)) = 40 ∧
    absQ ((6745 / 10000 : ℚ) * (100 - 60) / 40) = 6745 / 10000 ∧
    ¬ ((6745 / 10000 : ℚ) > 3) ∧
    (validate_data c8batch 0).issues =
      [.geFailure (.between .temperature (-50) 50)] := by
  decide

/-- C1 counterexample: during a cycle over `c1batch`, city `B`'s
validation (which the integrator runs on `B`'s slice alone) produces no
anomaly issue, whereas the claimed batch-wide computation — median and
MAD over the whole five-record batch — flags `B`'s temperature 100 with
modified z-score `0.6745 * 88 / 1 = 59.356`. -/
theorem C1_counterexample :
    (cityPayload c1batch "B" 0).issues.filter isAnomalyIssue = [] ∧
    specAnomalyCheckBatchwide (citySlice c1batch "B") c1batch =
      [.anomaly .temperature "B" 100 (some (14839 / 250))] := by
  decide

/-- C1 (amended): `process_single_city` hands the validator only the
entity's slice, so the anomaly statistics — and with them the whole
report payload — depend only on that slice: two batches with equal slices
for a city yield identical payloads, regardless of other entities'
records. -/
theorem C1_validation_is_slice_local (df₁ df₂ : List WeatherRecord)
    (city : String) (now : ℚ)
    (h : citySlice df₁ city = citySlice df₂ city) :
    cityPayload df₁ city now = cityPayload df₂ city now := by
  unfold cityPayload _calculate_metrics
  rw [h]

/-- Witness for C1: city `B`'s payload in the two-city batch `c1batch`
equals its payload when the batch is cut down to `B`'s slice alone. -/
theorem C1_validation_is_slice_local_witness :
    citySlice c1batch "B" = citySlice [mkRec "B" 0 100 50 1000 5] "B" ∧
    cityPayload c1batch "B" 0 = cityPayload [mkRec "B" 0 100 50 1000 5] "B" 0 :=
  ⟨by decide, C1_validation_is_slice_local _ _ _ _ (by decide)⟩

/-- C6 counterexample: for a one-record slice with one missing measurement
cell, `_calculate_metrics` reports completeness `600/7 ≈ 85.71` (it
divides by the full seven-column count), while the spec's formula over
the four measurement columns gives 75. -/
theorem C6_counterexample :
    Option.map Metrics.data_completeness (_calculate_metrics c6df "A") =
      some (600 / 7) ∧
    specCompleteness (citySlice c6df "A") = 75 ∧
    (600 / 7 : ℚ) ≠ 75 := by
  decide

/-- Each record has exactly seven cells: the non-null and null counts over
the seven DataFrame columns are complementary. -/
theorem recordCells_split (r : WeatherRecord) :
    recordNonNullCells r + recordNullCells r = 7 := by
  rcases r with ⟨c, ts, t, h, p, w, wc⟩
  cases t <;> cases h <;> cases p <;> cases w <;> cases wc <;> rfl

/-- Over a whole slice, non-null and null cells add up to
`7 × record count`. -/
theorem cells_split (df : List WeatherRecord) :
    nonNullCells df + missingCells df = 7 * df.length := by
  induction df with
  | nil => rfl
  | cons r rest ih =>
      have h := recordCells_split r
      simp only [nonNullCells, missingCells, List.map_cons, List.sum_cons,
        List.length_cons] at *
      omega

/-- C6 (amended): for every nonempty slice the computed completeness is
`100 * (1 - missing_cells / total_cells)` with
`total_cells = record_count × 7`, the slice's full column count (city,
timestamp and weather_condition included, in both the numerator's null
count and the denominator) — equivalently, 100 times the fraction of
non-null cells among all `7 × record_count` cells. -/
theorem C6_completeness_over_all_columns (df : List WeatherRecord)
    (city : String) (h : citySlice df city ≠ []) :
    Option.map Metrics.data_completeness (_calculate_metrics df city) =
      some ((1 - (missingCells (citySlice df city) : ℚ) /
        ((citySlice df city).length * 7)) * 100) ∧
    (1 - (missingCells (citySlice df city) : ℚ) /
        ((citySlice df city).length * 7)) * 100 =
      100 * (nonNullCells (citySlice df city) : ℚ) /
        (7 * (citySlice df city).length) := by
  have hb : (citySlice df city).isEmpty = false := List.isEmpty_eq_false.mpr h
  have hn : ((citySlice df city).length : ℚ) ≠ 0 := by
    have : citySlice df city ≠ [] := h
    simpa using this
  constructor
  · simp [_calculate_metrics, hb]
  · have key : (nonNullCells (citySlice df city) : ℚ) =
        7 * (citySlice df city).length - missingCells (citySlice df city) := by
      have hc := cells_split (citySlice df city)
      have hq : ((nonNullCells (citySlice df city) +
          missingCells (citySlice df city) : ℕ) : ℚ) =
          ((7 * (citySlice df city).length : ℕ) : ℚ) := by rw [hc]
      push_cast at hq
      linarith
    rw [key]
    field_simp
    ring

/-- Witness for C6: the amended completeness formula evaluated on the
one-record slice `c6df`. -/
theorem C6_completeness_over_all_columns_witness :
    Option.map Metrics.data_completeness (_calculate_metrics c6df "A") =
      some ((1 - (missingCells (citySlice c6df "A") : ℚ) /
        ((citySlice c6df "A").length * 7)) * 100) ∧
    (1 - (missingCells (citySlice c6df "A") : ℚ) /
        ((citySlice c6df "A").length * 7)) * 100 =
      100 * (nonNullCells (citySlice c6df "A") : ℚ) /
        (7 * (citySlice c6df "A").length) :=
  C6_completeness_over_all_columns c6df "A" (by decide)

/-- C7: fan-out isolation.  In a cycle over a nonempty batch where entity
`k`'s sink dispatch raises, the exception is caught at `k`'s boundary and
only logged, while every other configured entity with data and a working
sink is still fully processed: its payload is delivered to the sink and
its success is recorded. -/
theorem C7_fanout_isolation (raises : String → Bool)
    (sink : String → ReportPayload → SinkResult) (df : List WeatherRecord)
    (cities : List String) (now : ℚ) (k city : String)
    (hdf : df ≠ [])
    (hkmem : k ∈ cities) (hkraise : raises k = false)
    (hkslice : citySlice df k ≠ [])
    (hkfail : sink k (cityPayload df k now) = .raised)
    (hmem : city ∈ cities) (hne : city ≠ k)
    (hraise : raises city = false)
    (hsink : ∀ p, sink city p = .ok)
    (hslice : citySlice df city ≠ []) :
    Event.sendExceptionLog k ∈
      run_monitoring_cycle_on raises sink df cities now ∧
    Event.posted city (cityPayload df city now) ∈
      run_monitoring_cycle_on raises sink df cities now ∧
    Event.sinkSuccessLog city ∈
      run_monitoring_cycle_on raises sink df cities now := by
  have hb : df.isEmpty = false := List.isEmpty_eq_false.mpr hdf
  have hsb : (citySlice df city).isEmpty = false :=
    List.isEmpty_eq_false.mpr hslice
  have hkb : (citySlice df k).isEmpty = false :=
    List.isEmpty_eq_false.mpr hkslice
  have hkproc : process_single_city raises sink df k now =
      [.sendExceptionLog k] := by
    simp [process_single_city, hkraise, hkb, _send_to_monitoring_service,
      hkfail]
  have hproc : process_single_city raises sink df city now =
      [.posted city (cityPayload df city now), .sinkSuccessLog city] := by
    simp [process_single_city, hraise, hsb, _send_to_monitoring_service,
      hsink]
  have hrun : run_monitoring_cycle_on raises sink df cities now =
      cities.flatMap fun c => process_single_city raises sink df c now := by
    simp [run_monitoring_cycle_on, hb]
  refine ⟨?_, ?_, ?_⟩ <;> rw [hrun]
  · exact List.mem_flatMap.mpr ⟨k, hkmem, by rw [hkproc]; simp⟩
  · exact List.mem_flatMap.mpr ⟨city, hmem, by rw [hproc]; simp⟩
  · exact List.mem_flatMap.mpr ⟨city, hmem, by rw [hproc]; simp⟩

/-- Witness for C7: in a two-city cycle where the sink raises on `B`'s
dispatch, `B`'s failure is logged and `A`'s payload still reaches the
sink with a success log. -/
theorem C7_fanout_isolation_witness :
    Event.sendExceptionLog "B" ∈
      run_monitoring_cycle_on (fun _ => false) wSink wDf ["A", "B"] 0 ∧
    Event.posted "A" (cityPayload wDf "A" 0) ∈
      run_monitoring_cycle_on (fun _ => false) wSink wDf ["A", "B"] 0 ∧
    Event.sinkSuccessLog "A" ∈
      run_monitoring_cycle_on (fun _ => false) wSink wDf ["A", "B"] 0 :=
  C7_fanout_isolation (fun _ => false) wSink wDf ["A", "B"] 0 "B" "A"
    (by decide) (by decide) rfl (by decide) (by decide)
    (by decide) (by decide) rfl (fun p => rfl) (by decide)

/-- C9: an empty fetched batch makes the cycle log and return with no
entity processed and nothing dispatched; an entity whose slice is empty
short-circuits with only a warning log, no dispatch, and an empty
(`none`) metrics value. -/
theorem C9_empty_batch_and_empty_slice (raises : String → Bool)
    (sink : String → ReportPayload → SinkResult)
    (response : String → ReqResult) (cities : List String) (now : ℚ)
    (df : List WeatherRecord) (city : String)
    (hfetch : fetch_weather_data cities response now = [])
    (hslice : citySlice df city = []) (hraise : raises city = false) :
    run_monitoring_cycle raises sink response cities now =
      [.emptyBatchLog] ∧
    process_single_city raises sink df city now = [.noDataLog city] ∧
    _calculate_metrics df city = none := by
  refine ⟨?_, ?_, ?_⟩
  · simp [run_monitoring_cycle, hfetch, run_monitoring_cycle_on]
  · simp [process_single_city, hraise, hslice]
  · simp [_calculate_metrics, hslice]

/-- Witness for C9: a data source failing for every city yields the
logged no-op cycle, and a city absent from a batch is skipped with `none`
metrics. -/
theorem C9_empty_batch_and_empty_slice_witness :
    run_monitoring_cycle (fun _ => false) (fun _ _ => .ok)
      (fun _ => .timeout) ["A", "B"] 0 = [.emptyBatchLog] ∧
    process_single_city (fun _ => false) (fun _ _ => .ok) wDf "X" 0 =
      [.noDataLog "X"] ∧
    _calculate_metrics wDf "X" = none :=
  C9_empty_batch_and_empty_slice (fun _ => false) (fun _ _ => .ok)
    (fun _ => .timeout) ["A", "B"] 0 wDf "X" rfl (by decide) rfl

/-- C10: `fetch_weather_data` is a total function of the per-city request
and parse outcomes (every fallible step inside it is caught and becomes
`none`), the batch it returns is exactly the one collected from the
cities whose step succeeded — cities whose request or parse failed are
silently omitted — and when every city fails the batch is empty and the
orchestrator's cycle is the logged no-op. -/
theorem C10_fetch_never_raises (cities : List String)
    (response : String → ReqResult) (now : ℚ) :
    fetch_weather_data cities response now =
      (cities.filter fun c => (cityStep response now c).isSome).filterMap
        (cityStep response now) ∧
    ((∀ c ∈ cities, cityStep response now c = none) →
      fetch_weather_data cities response now = [] ∧
      ∀ raises sink, run_monitoring_cycle raises sink response cities now =
        [.emptyBatchLog]) := by
  constructor
  · unfold fetch_weather_data
    induction cities with
    | nil => rfl
    | cons c rest ih =>
        cases h : cityStep response now c <;>
          simp [List.filterMap_cons, List.filter_cons, h, ih]
  · intro hall
    have hf : fetch_weather_data cities response now = [] := by
      unfold fetch_weather_data
      exact List.filterMap_eq_nil_iff.mpr hall
    exact ⟨hf, fun raises sink => by
      simp [run_monitoring_cycle, hf, run_monitoring_cycle_on]⟩

/-- Witness for C10: with the request failing for both cities, the fetch
returns the empty batch and the cycle is the logged no-op. -/
theorem C10_fetch_never_raises_witness :
    fetch_weather_data ["A", "B"] (fun _ => .requestError) 0 = [] ∧
    run_monitoring_cycle (fun _ => false) (fun _ _ => .ok)
      (fun _ => .requestError) ["A", "B"] 0 = [.emptyBatchLog] :=
  ⟨((C10_fetch_never_raises ["A", "B"] (fun _ => .requestError) 0).2
      (fun _ _ => rfl)).1,
   ((C10_fetch_never_raises ["A", "B"] (fun _ => .requestError) 0).2
      (fun _ _ => rfl)).2 _ _⟩
